import Mathlib

/-!
Shallow embedding of the cert-manager CSI driver (Go) for specification
checking.  The embedding follows the Go sources:

  * `pkg/apis/validation/validation.go`  — attribute validation
  * `pkg/certmanager/certmanager.go`     — certificate issuance engine
  * `pkg/driver/nodeserver.go`           — volume lifecycle (publish/unpublish)

External collaborators (the Kubernetes API client, `time.ParseDuration`,
the filesystem, the mount primitive, the webhook sink) are modelled as
explicit environment records whose fields give the outcome of each external
call, so that the translated control flow stays a pure function.
-/

namespace CSI

/-! ## Go string primitives

`hasPfx pat s` models `strings.HasPrefix`-style matching on character lists,
`hasSub` models `strings.Contains` (pattern first), and `goSplit` models
`strings.Split` with a single-character separator.  `joinErrs` models
`strings.Join(errs, ", ")`. -/
def hasPfx : List Char → List Char → Bool
  | [], _ => true
  | _ :: _, [] => false
  | a :: pat, b :: s => a = b && hasPfx pat s

def hasSub (pat : List Char) : List Char → Bool
  | [] => hasPfx pat []
  | b :: s => hasPfx pat (b :: s) || hasSub pat s

/-- Go `strings.Contains(s, substr)`. -/
def strContains (s substr : String) : Bool :=
  hasSub substr.data s.data

def goSplitAux (sep : Char) : List Char → List (List Char)
  | [] => [[]]
  | c :: rest =>
    if c = sep then [] :: goSplitAux sep rest
    else
      match goSplitAux sep rest with
      | [] => [[c]]
      | h :: t => (c :: h) :: t

/-- Go `strings.Split(s, sep)` for a one-character separator: the result
always has one more element than the number of separators; in particular
`goSplit "" sep = [""]`. -/
def goSplit (s : String) (sep : Char) : List String :=
  (goSplitAux sep s.data).map (fun l => String.mk l)

/-- Go `strings.Join(l, ", ")`. -/
def joinErrs : List String → String
  | [] => ""
  | [x] => x
  | x :: xs => x ++ ", " ++ joinErrs xs

/-! ## Volume attributes

A Go `map[string]string` is modelled as an association list; `attrGet`
models `attr[k]` (returning `""` for an absent key) and `attrHas` the
`_, ok := attr[k]` form. -/
abbrev AttrMap := List (String × String)

def attrGet (attr : AttrMap) (k : String) : String :=
  match List.lookup k attr with
  | some v => v
  | none => ""

def attrHas (attr : AttrMap) (k : String) : Bool :=
  (List.lookup k attr).isSome

/-! ## Attribute keys (`pkg/apis/v1alpha1`)

The key constants live in `pkg/apis/v1alpha1/types.go`, which is not among
the provided sources; the `csi.storage.k8s.io` keys are fixed by the driver
tests, the rest follow the driver's attribute naming scheme.  No claim
depends on the literal values, only on the keys being distinct. -/
def issuerNameKey : String := "csi.cert-manager.io/issuer-name"

def issuerKindKey : String := "csi.cert-manager.io/issuer-kind"

def issuerGroupKey : String := "csi.cert-manager.io/issuer-group"

def commonNameKey : String := "csi.cert-manager.io/common-name"

def dnsNamesKey : String := "csi.cert-manager.io/dns-names"

def ipSANsKey : String := "csi.cert-manager.io/ip-sans"

def uriSANsKey : String := "csi.cert-manager.io/uri-sans"

def durationKey : String := "csi.cert-manager.io/duration"

def isCAKey : String := "csi.cert-manager.io/is-ca"

def certFileKey : String := "csi.cert-manager.io/certificate-file"

def keyFileKey : String := "csi.cert-manager.io/privatekey-file"

def renewBeforeKey : String := "csi.cert-manager.io/renew-before"

def disableAutoRenewKey : String := "csi.cert-manager.io/disable-auto-renew"

def reusePrivateKeyKey : String := "csi.cert-manager.io/reuse-private-key"

def csiPodNameKey : String := "csi.storage.k8s.io/pod.name"

def csiPodNamespaceKey : String := "csi.storage.k8s.io/pod.namespace"

def csiPodUIDKey : String := "csi.storage.k8s.io/pod.uid"

def csiEphemeralKey : String := "csi.storage.k8s.io/ephemeral"

end CSI

namespace validation

open CSI

/-! ## `pkg/apis/validation/validation.go`

`time.ParseDuration` is an external library call; it is passed in as an
oracle `durErr : String → Option String` returning the parse error message
(`none` when the string parses). -/
/-- `filepathBreakout` from `validation.go`: appends an error when the value
contains `".."` as a substring (Go `strings.Contains(s, "..")`). -/
def filepathBreakout (s k : String) (errs : List String) : List String :=
  if strContains s ".." then
    errs ++ [k ++ " filepaths may not contain '..'"]
  else errs

/-- `durationParse` from `validation.go`. -/
def durationParse (durErr : String → Option String)
    (s k : String) (errs : List String) : List String :=
  if s.length = 0 then errs
  else
    match durErr s with
    | some e => errs ++ [k ++ " must be a valid duration string: " ++ e]
    | none => errs

/-- `boolValue` from `validation.go`. -/
def boolValue (s k : String) (errs : List String) : List String :=
  if s.length = 0 then errs
  else if s ≠ "false" && s ≠ "true" then
    errs ++ [k ++ " may only be set to 'true' for 'false'"]
  else errs

/-- The error list accumulated by `ValidateAttributes` in `validation.go`,
in source order. -/
def validationErrs (durErr : String → Option String) (attr : AttrMap) :
    List String :=
  let errs : List String := []
  let errs := if (attrGet attr issuerNameKey).length = 0 then
      errs ++ [issuerNameKey ++ " field required"] else errs
  let errs := boolValue (attrGet attr isCAKey) isCAKey errs
  let errs := durationParse durErr (attrGet attr durationKey) durationKey errs
  let errs := filepathBreakout (attrGet attr certFileKey) certFileKey errs
  let errs := filepathBreakout (attrGet attr keyFileKey) keyFileKey errs
  let errs := durationParse durErr (attrGet attr renewBeforeKey) renewBeforeKey errs
  let errs := boolValue (attrGet attr disableAutoRenewKey) disableAutoRenewKey errs
  let errs := boolValue (attrGet attr reusePrivateKeyKey) reusePrivateKeyKey errs
  errs

/-- `ValidateAttributes` from `validation.go`: `none` on success, otherwise
the violation messages joined with `", "`. -/
def validateAttributes (durErr : String → Option String) (attr : AttrMap) :
    Option String :=
  if validationErrs durErr attr ≠ [] then
    some (joinErrs (validationErrs durErr attr))
  else none

/-! ## Normal form of the accumulated error list

Each validator appends an independent block to the running list; this
decomposition makes the aggregation behaviour of `ValidateAttributes`
explicit. -/
def issuerBlock (attr : AttrMap) : List String :=
  if (attrGet attr issuerNameKey).length = 0 then
    [issuerNameKey ++ " field required"] else []

def boolBlock (s k : String) : List String :=
  if s.length = 0 then []
  else if s ≠ "false" && s ≠ "true" then
    [k ++ " may only be set to 'true' for 'false'"] else []

def durBlock (durErr : String → Option String) (s k : String) : List String :=
  if s.length = 0 then []
  else
    match durErr s with
    | some e => [k ++ " must be a valid duration string: " ++ e]
    | none => []

def pathBlock (s k : String) : List String :=
  if strContains s ".." then [k ++ " filepaths may not contain '..'"] else []

/-! ## Violation predicates (the conditions each validator tests) -/
def missingIssuerName (attr : AttrMap) : Prop :=
  attrGet attr issuerNameKey = ""

def invalidBoolean (s : String) : Prop :=
  s ≠ "" ∧ s ≠ "false" ∧ s ≠ "true"

def invalidDuration (durErr : String → Option String) (s : String) : Prop :=
  s ≠ "" ∧ (durErr s).isSome = true

def forbiddenFilePath (s : String) : Prop :=
  strContains s ".." = true

/-- The specification's notion of a forbidden file path: some `/`-separated
segment of the value equals `".."` (a parent-directory traversal segment).
Stated from the spec's words, for comparison with the code's substring
check. -/
def specTraversalSegment (s : String) : Bool :=
  (goSplit s '/').any (fun seg => seg == "..")

end validation

namespace certmanager

open CSI

/-! ## `pkg/certmanager/certmanager.go` and `pkg/util/csr.go`

The Kubernetes client (`Get`/`Create`/`Delete` on CertificateRequest
resources), the spec matcher, the SAN/duration parsers, CSR encoding and
certificate decoding are external calls; their outcomes are supplied by a
`CMEnv` environment record.  The CertificateRequest resource named
`vol.ID` in the pod's namespace is modelled by an `Option CertificateRequest`
authority state (the API server keys resources by name, so at most one can
exist). -/
structure CRCondition where
  type : String
  status : String
  reason : String
  message : String
deriving DecidableEq

structure CRStatus where
  conditions : List CRCondition
  certificate : String
  ca : String
deriving DecidableEq

structure OwnerReference where
  apiVersion : String
  blockOwnerDeletion : Bool
  controller : Bool
  kind : String
  name : String
  uid : String
deriving DecidableEq

structure ObjectMeta where
  name : String
  nspace : String
  ownerReferences : List OwnerReference
deriving DecidableEq

structure ObjectReference where
  name : String
  kind : String
  group : String
deriving DecidableEq

structure CertificateRequestSpec where
  csrPEM : String
  isCA : Bool
  durationNs : Int
  issuerRef : ObjectReference
deriving DecidableEq

structure CertificateRequest where
  meta : ObjectMeta
  spec : CertificateRequestSpec
deriving DecidableEq

/-- `csiapi.MetaData`: the volume record. -/
structure MetaData where
  id : String
  name : String
  size : Int
  path : String
  targetPath : String
  attributes : AttrMap
deriving DecidableEq

/-- `util.KeyBundle` (the private key itself is opaque to the control
flow; only its PEM encoding, public part and algorithm names appear). -/
structure KeyBundle where
  pem : String
  publicKey : String
  publicKeyAlgorithm : String
  signatureAlgorithm : String
deriving DecidableEq

/-- The `x509.CertificateRequest` populated by `CreateNewCertificate`. -/
structure CertificateRequestX509 where
  commonName : String
  dnsNames : List String
  ipAddresses : List String
  uris : List String
  publicKey : String
  publicKeyAlgorithm : String
  signatureAlgorithm : String
deriving DecidableEq

/-- `x509.Certificate`: only the expiry is consumed by the driver. -/
structure Certificate where
  notAfter : Int
deriving DecidableEq

/-- `util.CertificateRequestReady` (`pkg/util/csr.go`): some condition has
type `"Ready"` and status `"True"`. -/
def certificateRequestReady (st : CRStatus) : Bool :=
  st.conditions.any fun cond => "Ready" = cond.type && "True" = cond.status

/-- `util.CertificateRequestFailed` (`pkg/util/csr.go`): the message of the
first condition of type `"Ready"` whose reason is `"Failed"`. -/
def certificateRequestFailedReason : List CRCondition → Option String
  | [] => none
  | con :: rest =>
    if "Ready" = con.type && con.reason = "Failed" then some con.message
    else certificateRequestFailedReason rest

/-- One observation per poll of the resource: either the `Get` call fails,
or it returns the resource's current status. -/
inductive PollObs
  | getErr (msg : String)
  | st (s : CRStatus)
deriving DecidableEq

/-- The fixed poll interval: `time.Second` in `wait.PollImmediate`. -/
def pollIntervalSec : Nat := 1

/-- One execution of the condition closure inside
`waitForCertificateRequestReady`: `.error` aborts the wait, `.ok (some s)`
means ready, `.ok none` means keep polling. -/
def pollOnce (name : String) (obs : PollObs) : Except String (Option CRStatus) :=
  match obs with
  | .getErr m =>
    .error ("error getting CertificateRequest " ++ name ++ ": " ++ m)
  | .st s =>
    match certificateRequestFailedReason s.conditions with
    | some reason => .error ("certificate request marked as failed: " ++ reason)
    | none =>
      if certificateRequestReady s then .ok (some s) else .ok none

/-- `wait.ErrWaitTimeout`. -/
def errWaitTimeout : String := "timed out waiting for the condition"

/-- `wait.PollImmediate`: an immediate call at poll index `i`, then `fuel`
further calls one interval apart; timeout when the fuel is exhausted. -/
def pollLoop (name : String) (trace : Nat → PollObs) :
    Nat → Nat → Except String CRStatus
  | i, 0 =>
    match pollOnce name (trace i) with
    | .error e => .error e
    | .ok (some s) => .ok s
    | .ok none => .error errWaitTimeout
  | i, fuel + 1 =>
    match pollOnce name (trace i) with
    | .error e => .error e
    | .ok (some s) => .ok s
    | .ok none => pollLoop name trace (i + 1) fuel

/-- `waitForCertificateRequestReady` from `certmanager.go`: polls every
`pollIntervalSec` up to `timeoutSec`. -/
def waitForCertificateRequestReady (name : String) (trace : Nat → PollObs)
    (timeoutSec : Nat) : Except String CRStatus :=
  pollLoop name trace 0 (timeoutSec / pollIntervalSec)

/-- Where an error of `CreateNewCertificate` originated. -/
inductive Stage
  | checkExisting
  | parseURIs
  | parseDuration
  | encodeCSR
  | createCall
  | polling
  | writeMeta
  | writeCert
  | writeCA
  | decodeCert
  | writeKey
deriving DecidableEq

/-- Operations issued against the issuing authority, in order. -/
inductive AuthOp
  | get (name nspace : String)
  | del (name nspace : String)
  | create (cr : CertificateRequest)
deriving DecidableEq

structure CMEnv where
  authority0 : Option CertificateRequest
  getErr : Option String
  deleteErr : Option String
  createErr : Option String
  matchesSpec : CertificateRequest → AttrMap → Option String
  parseURIs : String → Except String (List String)
  parseIPs : String → List String
  parseDur : String → Except String Int
  encodeCSR : CertificateRequestX509 → Except String String
  decodeCert : String → Except String Certificate
  jsonMarshal : MetaData → String
  pollTrace : Nat → PollObs
  writeMetaErr : Option String
  writeCertErr : Option String
  writeCAErr : Option String
  writeKeyErr : Option String

/-- `cmapi.DefaultCertificateDuration`: 90 days, in nanoseconds. -/
def defaultCertificateDuration : Int := 90 * 24 * 60 * 60 * 1000000000

/-- `csiapi.MetaDataFileName` (constant of `pkg/apis/v1alpha1`, modelled). -/
def metaDataFileName : String := "metadata.json"

/-- `util.CertPath` (modelled: fixed file name inside the volume dir). -/
def certPathOf (vol : MetaData) : String :=
  vol.path ++ "/" ++ attrGet vol.attributes certFileKey

/-- `util.CAPath` (modelled). -/
def caPathOf (vol : MetaData) : String := vol.path ++ "/ca.pem"

/-- `util.KeyPath` (modelled). -/
def keyPathOf (vol : MetaData) : String :=
  vol.path ++ "/" ++ attrGet vol.attributes keyFileKey

/-- `checkExistingCertificateRequest` from `certmanager.go`.  Returns the
reuse decision, the authority state after the call, and the operations
issued. -/
def checkExistingCertificateRequest (env : CMEnv) (vol : MetaData) :
    Except (Stage × String) Bool × Option CertificateRequest × List AuthOp :=
  let nspace := attrGet vol.attributes csiPodNamespaceKey
  match env.getErr with
  | some e => (.error (.checkExisting, e), env.authority0, [.get vol.id nspace])
  | none =>
    match env.authority0 with
    | none => (.ok false, none, [.get vol.id nspace])
    | some cr =>
      match env.matchesSpec cr vol.attributes with
      | some _ =>
        match env.deleteErr with
        | some e =>
          (.error (.checkExisting, e), env.authority0,
            [.get vol.id nspace, .del vol.id nspace])
        | none => (.ok false, none, [.get vol.id nspace, .del vol.id nspace])
      | none => (.ok true, some cr, [.get vol.id nspace])

/-- The `x509.CertificateRequest` populated by `CreateNewCertificate`
(lines 65–98 of `certmanager.go`): common name, the comma-split DNS names,
the parsed IP and URI SANs, and the key bundle's public part and
algorithms. -/
def buildX509CSR (env : CMEnv) (vol : MetaData) (keyBundle : KeyBundle)
    (uris : List String) : CertificateRequestX509 :=
  { commonName := attrGet vol.attributes commonNameKey,
    dnsNames := goSplit (attrGet vol.attributes dnsNamesKey) ',',
    ipAddresses := env.parseIPs (attrGet vol.attributes ipSANsKey),
    uris := uris, publicKey := keyBundle.publicKey,
    publicKeyAlgorithm := keyBundle.publicKeyAlgorithm,
    signatureAlgorithm := keyBundle.signatureAlgorithm }

/-- The build portion of `CreateNewCertificate` (lines 60–132 of
`certmanager.go`): SAN parsing, duration and CA-flag resolution, the
`x509.CertificateRequest`, its PEM encoding, and the desired
CertificateRequest resource, including the owner reference block. -/
def desiredBuild (env : CMEnv) (vol : MetaData) (keyBundle : KeyBundle) :
    Except (Stage × String) (CertificateRequestX509 × CertificateRequest) :=
  let attr := vol.attributes
  let nspace := attrGet attr csiPodNamespaceKey
  match env.parseURIs (attrGet attr uriSANsKey) with
  | .error e => .error (.parseURIs, e)
  | .ok uris =>
    let durRes : Except (Stage × String) Int :=
      if attrHas attr durationKey then
        match env.parseDur (attrGet attr durationKey) with
        | .error e => .error (.parseDuration, e)
        | .ok d => .ok d
      else .ok defaultCertificateDuration
    match durRes with
    | .error e => .error e
    | .ok duration =>
      let isCA :=
        if attrHas attr isCAKey then
          match (attrGet attr isCAKey).toLower with
          | "true" => true
          | "false" => false
          | _ => false
        else false
      let csr : CertificateRequestX509 := buildX509CSR env vol keyBundle uris
      match env.encodeCSR csr with
      | .error e => .error (.encodeCSR, e)
      | .ok csrPEM =>
        let cr : CertificateRequest :=
          { meta :=
              { name := vol.id, nspace := nspace,
                ownerReferences :=
                  [{ apiVersion := "core/v1", blockOwnerDeletion := true,
                     controller := false, kind := "Pod",
                     name := attrGet vol.attributes csiPodNamespaceKey,
                     uid := attrGet vol.attributes csiPodUIDKey }] },
            spec :=
              { csrPEM := csrPEM, isCA := isCA, durationNs := duration,
                issuerRef :=
                  { name := attrGet attr issuerNameKey,
                    kind := attrGet attr issuerKindKey,
                    group := attrGet attr issuerGroupKey } } }
        .ok (csr, cr)

/-- The post-create portion of `CreateNewCertificate` (lines 143–190):
readiness polling with a 30-second bound, then the metadata, certificate,
optional CA, and key writes, in source order.  Returns the result and the
list of files written (path, contents). -/
def finishCertificate (env : CMEnv) (vol : MetaData) (keyBundle : KeyBundle) :
    Except (Stage × String) Certificate × List (String × String) :=
  match waitForCertificateRequestReady vol.id env.pollTrace 30 with
  | .error e => (.error (.polling, e), [])
  | .ok st =>
    match env.writeMetaErr with
    | some e => (.error (.writeMeta, e), [])
    | none =>
      let written := [(vol.path ++ "/" ++ metaDataFileName, env.jsonMarshal vol)]
      match env.writeCertErr with
      | some e => (.error (.writeCert, e), written)
      | none =>
        let written := written ++ [(certPathOf vol, st.certificate)]
        let caStep : Except (Stage × String) (List (String × String)) :=
          if st.ca.length > 0 then
            match env.writeCAErr with
            | some e => .error (.writeCA, e)
            | none => .ok (written ++ [(caPathOf vol, st.ca)])
          else .ok written
        match caStep with
        | .error e => (.error e, written)
        | .ok written2 =>
          match env.decodeCert st.certificate with
          | .error e => (.error (.decodeCert, e), written2)
          | .ok cert =>
            match env.writeKeyErr with
            | some e => (.error (.writeKey, e), written2)
            | none => (.ok cert, written2 ++ [(keyPathOf vol, keyBundle.pem)])

/-- Result of one `CreateNewCertificate` call: outcome, authority
operations issued, authority state after the call, files written, and the
CSR that was built (when the build path ran to completion). -/
structure CMOut where
  result : Except (Stage × String) Certificate
  ops : List AuthOp
  authority : Option CertificateRequest
  written : List (String × String)
  builtCSR : Option CertificateRequestX509

/-- `CreateNewCertificate` from `certmanager.go`. -/
def createNewCertificate (env : CMEnv) (vol : MetaData)
    (keyBundle : KeyBundle) : CMOut :=
  match checkExistingCertificateRequest env vol with
  | (.error e, auth, ops) => ⟨.error e, ops, auth, [], none⟩
  | (.ok true, auth, ops) =>
    let fin := finishCertificate env vol keyBundle
    ⟨fin.1, ops, auth, fin.2, none⟩
  | (.ok false, auth, ops) =>
    match desiredBuild env vol keyBundle with
    | .error e => ⟨.error e, ops, auth, [], none⟩
    | .ok (csr, cr) =>
      match env.createErr with
      | some e => ⟨.error (.createCall, e), ops ++ [.create cr], auth, [], some csr⟩
      | none =>
        let fin := finishCertificate env vol keyBundle
        ⟨fin.1, ops ++ [.create cr], some cr, fin.2, some csr⟩

/-- A status that is neither ready nor failed (reason `"Pending"`). -/
def pendingStatus : CRStatus :=
  CRStatus.mk [CRCondition.mk "Ready" "False" "Pending" "waiting"] "" ""

/-- A status carrying the failed condition. -/
def failedStatus : CRStatus :=
  CRStatus.mk [CRCondition.mk "Ready" "False" "Failed" "denied by policy"] "" ""

/-- A poll trace: quiet for two polls, then failed. -/
def c5Trace : Nat → PollObs := fun j =>
  if j < 2 then .st pendingStatus else .st failedStatus

/-- Attributes of a sample volume: issuer set, pod identity set, nothing
else. -/
def sampleAttr : AttrMap :=
  [(issuerNameKey, "ca-issuer"),
   (csiPodNameKey, "test-pod"),
   (csiPodNamespaceKey, "test-namespace"),
   (csiPodUIDKey, "pod-uid-1234")]

def sampleVol : MetaData :=
  MetaData.mk "csi-0001" "test-pod-csi-0001" 102400
    "/csi-data-dir/csi-0001" "/target" sampleAttr

def sampleKeyBundle : KeyBundle :=
  KeyBundle.mk "KEYPEM" "PUB" "RSA" "SHA256WithRSA"

/-- A ready status carrying certificate and CA bytes. -/
def readyStatus : CRStatus :=
  CRStatus.mk [CRCondition.mk "Ready" "True" "Issued" "ok"] "CERTPEM" "CAPEM"

/-- An environment in which no CertificateRequest exists yet and every
external call succeeds; the resource is ready at the first poll. -/
def sampleEnv : CMEnv :=
  { authority0 := none, getErr := none, deleteErr := none, createErr := none,
    matchesSpec := fun _ _ => none,
    parseURIs := fun _ => .ok [],
    parseIPs := fun _ => [],
    parseDur := fun _ => .ok 0,
    encodeCSR := fun _ => .ok "CSRPEM",
    decodeCert := fun _ => .ok (Certificate.mk 1000),
    jsonMarshal := fun _ => "METAJSON",
    pollTrace := fun _ => .st readyStatus,
    writeMetaErr := none, writeCertErr := none, writeCAErr := none,
    writeKeyErr := none }

/-- The CSR that `desiredBuild` produces for the sample volume. -/
def sampleCSR : CertificateRequestX509 :=
  CertificateRequestX509.mk "" [""] [] [] "PUB" "RSA" "SHA256WithRSA"

/-- The CertificateRequest resource that `desiredBuild` produces for the
sample volume. -/
def sampleCR : CertificateRequest :=
  CertificateRequest.mk
    (ObjectMeta.mk "csi-0001" "test-namespace"
      [OwnerReference.mk "core/v1" true false "Pod" "test-namespace"
        "pod-uid-1234"])
    (CertificateRequestSpec.mk "CSRPEM" false defaultCertificateDuration
      (ObjectReference.mk "ca-issuer" "" ""))

/-- Environment in which the create call against the authority fails. -/
def c9Env : CMEnv := { sampleEnv with createErr := some "apiserver unavailable" }

end certmanager

namespace driver

open CSI certmanager

/-! ## `pkg/driver/nodeserver.go`

`NodePublishVolume` and `NodeUnpublishVolume`, with the filesystem, the
mount primitive, the key generator, the default-setting step
(`pkg/apis/defaults`, not among the provided sources) and the renewer
supplied through environment records.  An effects record tracks which of
the externally visible steps each call performed. -/
structure PublishReq where
  volumeId : String
  targetPath : String
  volumeContext : AttrMap
  hasVolumeCapability : Bool
  isBlockAccess : Bool
deriving DecidableEq

inductive GrpcCode
  | internal
  | invalidArgument
  | unknown
deriving DecidableEq

structure GrpcError where
  code : GrpcCode
  msg : String
deriving DecidableEq

inductive OsErrKind
  | isExist
  | isNotExist
  | other
deriving DecidableEq

structure OsErr where
  kind : OsErrKind
  msg : String
deriving DecidableEq

/-- `maxStorageCapacity = 100 * kib` from `nodeserver.go`. -/
def maxStorageCapacity : Int := 100 * 1024

/-- `util.BuildVolumeName` (modelled: derived from pod name and id). -/
def buildVolumeName (podName id : String) : String := podName ++ "-" ++ id

/-- `util.MountPath` (modelled: the mount-source directory inside the
volume's owned directory). -/
def mountPathOf (vol : MetaData) : String := vol.path ++ "/mount"

/-- The error list accumulated by `validateVolumeAttributes` in
`nodeserver.go`, in source order. -/
def nodeValidationErrs (req : PublishReq) : List String :=
  let attr := req.volumeContext
  let errs : List String := []
  let ephemeralVolume :=
    attrGet attr csiEphemeralKey = "true" ∨ attrGet attr csiEphemeralKey = ""
  let errs := if ¬ ephemeralVolume then
      errs ++ ["publishing a non-ephemeral volume mount is not supported"]
    else errs
  let errs := if !(attrHas attr csiPodNameKey) ||
      !(attrHas attr csiPodNamespaceKey) then
      errs ++ ["expecting both " ++ csiPodNamespaceKey ++ " and " ++
        csiPodNameKey ++ " attributes to be set in context"]
    else errs
  let errs := if !req.hasVolumeCapability then
      errs ++ ["volume capability missing"]
    else if req.isBlockAccess then
      errs ++ ["block access type not supported"]
    else errs
  let errs := if req.volumeId.length = 0 then errs ++ ["volume ID missing"]
    else errs
  let errs := if req.targetPath.length = 0 then errs ++ ["target path missing"]
    else errs
  errs

/-- `validateVolumeAttributes` from `nodeserver.go`. -/
def validateVolumeAttributes (req : PublishReq) : Option String :=
  if nodeValidationErrs req ≠ [] then
    some (joinErrs (nodeValidationErrs req))
  else none

/-- The volume record built by `createVolume` in `nodeserver.go` (the
`os.MkdirAll` outcome is the environment's `mkVolDirErr`). -/
def createVolume (dataRoot id targetPath : String) (attr : AttrMap) :
    MetaData :=
  { id := id,
    name := buildVolumeName (attrGet attr csiPodNameKey) id,
    size := maxStorageCapacity,
    path := dataRoot ++ "/" ++ id,
    targetPath := targetPath,
    attributes := attr }

structure PubEffects where
  issuanceInvoked : Bool
  watchRegistered : Bool
  metaFileWritten : Bool
  mountAttempted : Bool
  volumeDirRemoved : Bool
  webhookCreateSent : Bool
deriving DecidableEq

def noPubEffects : PubEffects := ⟨false, false, false, false, false, false⟩

structure PublishEnv where
  durErr : String → Option String
  defaults : AttrMap → Except String AttrMap
  dataRoot : String
  mkVolDirErr : Option OsErr
  keyBundle : Except String KeyBundle
  cm : CMEnv
  watchErr : Option String
  writeMetaErr : Option String
  likelyMountPoint : Bool
  likelyMountPointErr : Option OsErr
  mkTargetDirErr : Option String
  mkMountDirErr : Option String
  mountErr : Option String
  removeAllErr : Option OsErr

/-- Lines 110–154 of `NodePublishVolume`: metadata write, mount-point
check (creating the target directory when it does not exist), mount-source
directory creation, the idempotent already-mounted early return, the
read-only bind mount with best-effort rollback on failure, and the create
notification. -/
def publishMount (env : PublishEnv) (req : PublishReq) (vol : MetaData)
    (eff : PubEffects) : Except GrpcError Unit × PubEffects :=
  match env.writeMetaErr with
  | some e => (.error ⟨.unknown, "failed to write metadata file: " ++ e⟩, eff)
  | none =>
    let eff := { eff with metaFileWritten := true }
    let mountPath := mountPathOf vol
    let step : Except GrpcError Bool :=
      match env.likelyMountPointErr with
      | some e =>
        if e.kind = OsErrKind.isNotExist then
          match env.mkTargetDirErr with
          | some m => .error ⟨.internal,
              "failed to create target path directory " ++ req.targetPath ++
                ": " ++ m⟩
          | none => .ok false
        else .ok env.likelyMountPoint
      | none => .ok env.likelyMountPoint
    match step with
    | .error g => (.error g, eff)
    | .ok mntPoint =>
      match env.mkMountDirErr with
      | some m => (.error ⟨.internal,
          "failed to create mount path directory " ++ mountPath ++ ": " ++ m⟩,
          eff)
      | none =>
        if mntPoint then (.ok (), eff)
        else
          let eff := { eff with mountAttempted := true }
          match env.mountErr with
          | some m =>
            let eff := { eff with volumeDirRemoved := true }
            let msg :=
              match env.removeAllErr with
              | some r =>
                if r.kind = OsErrKind.isNotExist then m
                else "failed to remove all from " ++ vol.path ++ ": " ++ m ++
                  "," ++ r.msg
              | none => m
            (.error ⟨.internal, "failed to mount path " ++ mountPath ++
              " -> " ++ req.targetPath ++ ": " ++ msg⟩, eff)
          | none =>
            let eff := { eff with webhookCreateSent := true }
            (.ok (), eff)

/-- Lines 93–108 of `NodePublishVolume`: key generation, the issuance
call, and renewal-watcher registration (unless disabled by attribute). -/
def publishAfterVolume (env : PublishEnv) (req : PublishReq) (attr : AttrMap)
    (vol : MetaData) : Except GrpcError Unit × PubEffects :=
  match env.keyBundle with
  | .error e => (.error ⟨.unknown, e⟩, noPubEffects)
  | .ok kb =>
    let cmOut := certmanager.createNewCertificate env.cm vol kb
    let eff1 : PubEffects := { noPubEffects with issuanceInvoked := true }
    match cmOut.result with
    | .error p =>
      (.error ⟨.unknown, "failed to create new certificate: " ++ p.2⟩, eff1)
    | .ok _ =>
      if !(attrHas attr disableAutoRenewKey) ||
          attrGet attr disableAutoRenewKey ≠ "true" then
        let eff2 := { eff1 with watchRegistered := true }
        match env.watchErr with
        | some e => (.error ⟨.unknown, "failed to watch file: " ++ e⟩, eff2)
        | none => publishMount env req vol eff2
      else publishMount env req vol eff1

/-- `NodePublishVolume` from `nodeserver.go`. -/
def nodePublishVolume (env : PublishEnv) (req : PublishReq) :
    Except GrpcError Unit × PubEffects :=
  match validateVolumeAttributes req with
  | some e => (.error ⟨.internal, e⟩, noPubEffects)
  | none =>
    match env.defaults req.volumeContext with
    | .error e => (.error ⟨.invalidArgument, e⟩, noPubEffects)
    | .ok attr =>
      match validation.validateAttributes env.durErr attr with
      | some e => (.error ⟨.invalidArgument, e⟩, noPubEffects)
      | none =>
        let vol := createVolume env.dataRoot req.volumeId req.targetPath attr
        match env.mkVolDirErr with
        | some e =>
          if e.kind = OsErrKind.isExist then publishAfterVolume env req attr vol
          else (.error ⟨.internal, e.msg⟩, noPubEffects)
        | none => publishAfterVolume env req attr vol

structure UnpubEnv where
  metaData : Option MetaData
  unmountErr : Option String
  removeAllErr : Option OsErr

structure UnpubEffects where
  metaRead : Bool
  watcherKilled : Bool
  unmountAttempted : Bool
  removeAttempted : Bool
  destroySent : Bool
deriving DecidableEq

def noUnpubEffects : UnpubEffects := ⟨false, false, false, false, false⟩

/-- Result of `NodeUnpublishVolume`: the returned error (if any), whether
the returned response pointer is nil, and the steps performed. -/
structure UnpubOut where
  err : Option GrpcError
  respNil : Bool
  eff : UnpubEffects
deriving DecidableEq

/-- `NodeUnpublishVolume` from `nodeserver.go`.  Note the argument checks'
swapped messages (source lines 162–167) and the `return nil, nil` on
unmount failure (source line 182). -/
def nodeUnpublishVolume (env : UnpubEnv) (volumeId targetPath : String) :
    UnpubOut :=
  if targetPath.length = 0 then
    ⟨some ⟨.invalidArgument, "volume ID missing in request"⟩, true,
      noUnpubEffects⟩
  else if volumeId.length = 0 then
    ⟨some ⟨.invalidArgument, "target path missing in request"⟩, true,
      noUnpubEffects⟩
  else
    let eff0 : UnpubEffects := ⟨true, true, true, false, false⟩
    match env.unmountErr with
    | some _ => ⟨none, true, eff0⟩
    | none =>
      match env.removeAllErr with
      | some e =>
        if e.kind = OsErrKind.isNotExist then
          ⟨none, false,
            { eff0 with removeAttempted := true,
                        destroySent := env.metaData.isSome }⟩
        else ⟨some ⟨.unknown, e.msg⟩, true,
          { eff0 with removeAttempted := true }⟩
      | none =>
        ⟨none, false,
          { eff0 with removeAttempted := true,
                      destroySent := env.metaData.isSome }⟩

/-- An unpublish environment: metadata present, the unmount fails, removal
would succeed. -/
def c1Env : UnpubEnv :=
  { metaData := some sampleVol,
    unmountErr := some "device or resource busy",
    removeAllErr := none }

/-- A publish environment in which every external step succeeds and the
target path is already an active mount point. -/
def c2Env : PublishEnv :=
  { durErr := fun _ => none,
    defaults := fun a => .ok a,
    dataRoot := "/csi-data-dir",
    mkVolDirErr := none,
    keyBundle := .ok sampleKeyBundle,
    cm := sampleEnv,
    watchErr := none,
    writeMetaErr := none,
    likelyMountPoint := true,
    likelyMountPointErr := none,
    mkTargetDirErr := none,
    mkMountDirErr := none,
    mountErr := none,
    removeAllErr := none }

/-- The re-publish request for the sample volume. -/
def c2Req : PublishReq :=
  { volumeId := "csi-0001", targetPath := "/target",
    volumeContext := sampleAttr, hasVolumeCapability := true,
    isBlockAccess := false }

/-- A publish request that violates the block-access restriction. -/
def c3Req : PublishReq :=
  { volumeId := "csi-0002", targetPath := "/target",
    volumeContext := sampleAttr, hasVolumeCapability := true,
    isBlockAccess := true }

/-- The capability/access-type portion of the error list. -/
def capBlock (req : PublishReq) : List String :=
  if !req.hasVolumeCapability then ["volume capability missing"]
  else if req.isBlockAccess then ["block access type not supported"]
  else []

end driver

namespace CSI

/-! ## Properties of the string primitives -/
theorem hasPfx_iff (pat s : List Char) : hasPfx pat s = true ↔ pat <+: s := by
  induction pat generalizing s with
  | nil =>
    simp only [hasPfx]
    exact iff_of_true trivial List.nil_prefix
  | cons a pat ih =>
    cases s with
    | nil =>
      simp only [hasPfx, List.prefix_nil]
      exact iff_of_false (by simp) (by simp)
    | cons b s =>
      simp only [hasPfx, Bool.and_eq_true, decide_eq_true_eq, ih,
        List.cons_prefix_cons]

theorem hasSub_iff (pat s : List Char) : hasSub pat s = true ↔ pat <:+: s := by
  induction s with
  | nil =>
    simp [hasSub, hasPfx_iff]
  | cons b s ih =>
    simp only [hasSub, Bool.or_eq_true, hasPfx_iff, ih, List.infix_cons_iff]

theorem strContains_iff (s substr : String) :
    strContains s substr = true ↔ substr.data <:+: s.data := by
  simp [strContains, hasSub_iff]

/-- Every element of an error list is a substring of the Go `strings.Join`
of the list with `", "`. -/
theorem mem_data_infix_joinErrs (m : String) (l : List String) (hm : m ∈ l) :
    m.data <:+: (joinErrs l).data := by
  induction l with
  | nil => cases hm
  | cons x xs ih =>
    cases xs with
    | nil =>
      have hx : m = x := by simpa using hm
      subst hx
      exact List.infix_rfl
    | cons y ys =>
      rcases List.mem_cons.mp hm with h | h
      · subst h
        show m.data <:+: (m ++ ", " ++ joinErrs (y :: ys)).data
        simp only [String.data_append]
        exact (List.prefix_append m.data _).isInfix.trans
          ((List.prefix_append _ _).isInfix)
      · have := ih h
        show m.data <:+: (x ++ ", " ++ joinErrs (y :: ys)).data
        simp only [String.data_append]
        exact this.trans (List.suffix_append _ _).isInfix

theorem joinErrs_contains_of_mem (m : String) (l : List String) (hm : m ∈ l) :
    strContains (joinErrs l) m = true :=
  (strContains_iff _ _).mpr (mem_data_infix_joinErrs m l hm)

end CSI

namespace validation

open CSI

theorem boolValue_eq (s k : String) (errs : List String) :
    boolValue s k errs = errs ++ boolBlock s k := by
  unfold boolValue boolBlock
  split_ifs <;> simp

theorem durationParse_eq (durErr : String → Option String) (s k : String)
    (errs : List String) :
    durationParse durErr s k errs = errs ++ durBlock durErr s k := by
  unfold durationParse durBlock
  split_ifs
  · simp
  · cases durErr s <;> simp

theorem filepathBreakout_eq (s k : String) (errs : List String) :
    filepathBreakout s k errs = errs ++ pathBlock s k := by
  unfold filepathBreakout pathBlock
  split_ifs <;> simp

theorem validationErrs_eq (durErr : String → Option String) (attr : AttrMap) :
    validationErrs durErr attr =
      issuerBlock attr ++
      boolBlock (attrGet attr isCAKey) isCAKey ++
      durBlock durErr (attrGet attr durationKey) durationKey ++
      pathBlock (attrGet attr certFileKey) certFileKey ++
      pathBlock (attrGet attr keyFileKey) keyFileKey ++
      durBlock durErr (attrGet attr renewBeforeKey) renewBeforeKey ++
      boolBlock (attrGet attr disableAutoRenewKey) disableAutoRenewKey ++
      boolBlock (attrGet attr reusePrivateKeyKey) reusePrivateKeyKey := by
  simp only [validationErrs, issuerBlock, boolValue_eq, durationParse_eq,
    filepathBreakout_eq, List.nil_append]

theorem string_length_eq_zero_iff (s : String) : s.length = 0 ↔ s = "" := by
  constructor
  · intro h
    cases s with
    | mk l =>
      have hl : l = [] := List.length_eq_zero.mp h
      subst hl
      rfl
  · intro h
    subst h
    rfl

theorem issuerBlock_eq_nil_iff (attr : AttrMap) :
    issuerBlock attr = [] ↔ ¬ missingIssuerName attr := by
  unfold issuerBlock missingIssuerName
  split_ifs with h
  · simp [(string_length_eq_zero_iff _).mp h]
  · simp only [true_iff]
    exact fun he => h ((string_length_eq_zero_iff _).mpr he)

theorem boolBlock_eq_nil_iff (s k : String) :
    boolBlock s k = [] ↔ ¬ invalidBoolean s := by
  unfold boolBlock invalidBoolean
  by_cases h0 : s.length = 0
  · simp [h0, (string_length_eq_zero_iff _).mp h0]
  · have hne : ¬ s = "" := fun he => h0 ((string_length_eq_zero_iff _).mpr he)
    by_cases hf : s = "false"
    · simp [h0, hf]
    · by_cases ht : s = "true"
      · simp [h0, ht]
      · simp [h0, hf, ht, hne]

theorem durBlock_eq_nil_iff (durErr : String → Option String) (s k : String) :
    durBlock durErr s k = [] ↔ ¬ invalidDuration durErr s := by
  unfold durBlock invalidDuration
  split_ifs with h1
  · simp [h1, (string_length_eq_zero_iff _).mp h1]
  · have hs : ¬ s = "" := fun he => h1 ((string_length_eq_zero_iff _).mpr he)
    cases hdur : durErr s <;> simp [hs, hdur]

theorem pathBlock_eq_nil_iff (s k : String) :
    pathBlock s k = [] ↔ ¬ forbiddenFilePath s := by
  unfold pathBlock forbiddenFilePath
  split_ifs with h <;> simp [h]

theorem validateAttributes_isSome_iff (durErr : String → Option String)
    (attr : AttrMap) :
    (validateAttributes durErr attr).isSome = true ↔
      validationErrs durErr attr ≠ [] := by
  unfold validateAttributes
  split_ifs with h <;> simp [h]

theorem validateAttributes_eq_some (durErr : String → Option String)
    (attr : AttrMap) (s : String) (h : validateAttributes durErr attr = some s) :
    s = joinErrs (validationErrs durErr attr) := by
  unfold validateAttributes at h
  split_ifs at h with hi
  · exact (Option.some.injEq _ _ ▸ h).symm

/-- C7: attribute validation returns an error exactly when at least one
violation exists (missing issuer name, non-boolean value for a boolean
key, unparsable duration value, or a forbidden file path), the single
returned error aggregates (contains as a substring) the message of every
violation present, and for mappings missing the issuer name the error
mentions the issuer-name field. -/
theorem C7_validateAttributes_aggregates (durErr : String → Option String)
    (attr : AttrMap) :
    ((validateAttributes durErr attr).isSome = true ↔
      (missingIssuerName attr ∨
       invalidBoolean (attrGet attr isCAKey) ∨
       invalidBoolean (attrGet attr disableAutoRenewKey) ∨
       invalidBoolean (attrGet attr reusePrivateKeyKey) ∨
       invalidDuration durErr (attrGet attr durationKey) ∨
       invalidDuration durErr (attrGet attr renewBeforeKey) ∨
       forbiddenFilePath (attrGet attr certFileKey) ∨
       forbiddenFilePath (attrGet attr keyFileKey))) ∧
    (∀ s, validateAttributes durErr attr = some s →
      ∀ m ∈ validationErrs durErr attr, strContains s m = true) ∧
    (missingIssuerName attr → ∀ s, validateAttributes durErr attr = some s →
      strContains s (issuerNameKey ++ " field required") = true) := by
  refine ⟨?_, ?_, ?_⟩
  · rw [validateAttributes_isSome_iff, validationErrs_eq]
    simp only [ne_eq, List.append_eq_nil, issuerBlock_eq_nil_iff,
      boolBlock_eq_nil_iff, durBlock_eq_nil_iff, pathBlock_eq_nil_iff,
      not_and_or, not_not]
    tauto
  · intro s hs m hm
    rw [validateAttributes_eq_some durErr attr s hs]
    exact joinErrs_contains_of_mem m _ hm
  · intro hmiss s hs
    rw [validateAttributes_eq_some durErr attr s hs]
    apply joinErrs_contains_of_mem
    rw [validationErrs_eq]
    have hlen : (attrGet attr issuerNameKey).length = 0 :=
      (string_length_eq_zero_iff _).mpr hmiss
    have hmem : (issuerNameKey ++ " field required") ∈ issuerBlock attr := by
      simp [issuerBlock, hlen]
    simp only [List.mem_append]
    tauto

/-- Witness for C7: the empty attribute mapping (issuer name missing, parse
oracle accepting everything) is rejected and the error mentions the
issuer-name field. -/
theorem C7_validateAttributes_aggregates_witness :
    (validateAttributes (fun _ => none) []).isSome = true ∧
    strContains (joinErrs (validationErrs (fun _ => none) []))
      (issuerNameKey ++ " field required") = true := by
  constructor
  · exact (C7_validateAttributes_aggregates (fun _ => none) []).1.mpr
      (Or.inl rfl)
  · exact (C7_validateAttributes_aggregates (fun _ => none) []).2.2 rfl _ rfl

/-- C8 counterexample: the value `"tls..crt"` has no parent-directory
traversal segment, yet validation of the certificate-file attribute
rejects it (the code tests for `".."` as a substring). -/
theorem C8_counterexample :
    (validateAttributes (fun _ => none)
      [(issuerNameKey, "my-issuer"), (certFileKey, "tls..crt")]).isSome
      = true ∧
    specTraversalSegment "tls..crt" = false := by
  constructor
  · rfl
  · rfl

/-- C8 (amended): validation of the certificate-file and key-file path
attributes fails exactly when the attribute value contains `".."` as a
substring (not: a parent-directory traversal segment), and passes
otherwise — when both values are free of the substring, the error list is
exactly the one produced by the remaining validators. -/
theorem C8_filepath_substring (durErr : String → Option String)
    (attr : AttrMap) (s k : String) (errs : List String) :
    (filepathBreakout s k errs ≠ errs ↔ strContains s ".." = true) ∧
    ((forbiddenFilePath (attrGet attr certFileKey) ∨
      forbiddenFilePath (attrGet attr keyFileKey)) →
      (validateAttributes durErr attr).isSome = true) ∧
    (strContains (attrGet attr certFileKey) ".." = false →
     strContains (attrGet attr keyFileKey) ".." = false →
      validationErrs durErr attr =
        issuerBlock attr ++
        boolBlock (attrGet attr isCAKey) isCAKey ++
        durBlock durErr (attrGet attr durationKey) durationKey ++
        durBlock durErr (attrGet attr renewBeforeKey) renewBeforeKey ++
        boolBlock (attrGet attr disableAutoRenewKey) disableAutoRenewKey ++
        boolBlock (attrGet attr reusePrivateKeyKey) reusePrivateKeyKey) := by
  refine ⟨?_, ?_, ?_⟩
  · unfold filepathBreakout
    split_ifs with h
    · simp only [h, iff_true]
      intro habs
      have hlen := congrArg List.length habs
      simp at hlen
    · simp [h]
  · intro hor
    rw [validateAttributes_isSome_iff, validationErrs_eq]
    intro hnil
    simp only [List.append_eq_nil] at hnil
    obtain ⟨⟨⟨⟨⟨⟨⟨hb1, hb2⟩, hb3⟩, hb4⟩, hb5⟩, hb6⟩, hb7⟩, hb8⟩ := hnil
    rcases hor with hc | hk
    · exact ((pathBlock_eq_nil_iff _ _).mp hb4) hc
    · exact ((pathBlock_eq_nil_iff _ _).mp hb5) hk
  · intro hc hk
    rw [validationErrs_eq]
    have h4 : pathBlock (attrGet attr certFileKey) certFileKey = [] := by
      unfold pathBlock
      simp [hc]
    have h5 : pathBlock (attrGet attr keyFileKey) keyFileKey = [] := by
      unfold pathBlock
      simp [hk]
    rw [h4, h5]
    simp

/-- Witness for C8: a key-file value with a real traversal segment is
rejected. -/
theorem C8_filepath_substring_witness :
    (validateAttributes (fun _ => none) [(keyFileKey, "../key")]).isSome
      = true :=
  (C8_filepath_substring (fun _ => none) [(keyFileKey, "../key")] "" "" []).2.1
    (Or.inr rfl)

end validation

namespace certmanager

open CSI

theorem pollLoop_error (name : String) (trace : Nat → PollObs) (i : Nat)
    (e : String) (h : pollOnce name (trace i) = .error e) :
    ∀ fuel, pollLoop name trace i fuel = .error e := by
  intro fuel
  cases fuel <;> simp [pollLoop, h]

theorem pollLoop_ready (name : String) (trace : Nat → PollObs) (i : Nat)
    (s : CRStatus) (h : pollOnce name (trace i) = .ok (some s)) :
    ∀ fuel, pollLoop name trace i fuel = .ok s := by
  intro fuel
  cases fuel <;> simp [pollLoop, h]

theorem pollLoop_skip (name : String) (trace : Nat → PollObs) :
    ∀ (k i fuel : Nat), k ≤ fuel →
      (∀ j, j < k → pollOnce name (trace (i + j)) = .ok none) →
      pollLoop name trace i fuel = pollLoop name trace (i + k) (fuel - k) := by
  intro k
  induction k with
  | zero =>
    intro i fuel _ _
    simp
  | succ k ih =>
    intro i fuel hk hq
    cases fuel with
    | zero => omega
    | succ fuel =>
      have h0 : pollOnce name (trace i) = .ok none := by
        simpa using hq 0 (Nat.succ_pos k)
      have hstep : pollLoop name trace i (fuel + 1) =
          pollLoop name trace (i + 1) fuel := by
        simp [pollLoop, h0]
      have hrest := ih (i + 1) fuel (by omega) (fun j hj => by
        have := hq (j + 1) (by omega)
        have harith : i + 1 + j = i + (j + 1) := by omega
        rw [harith]
        exact this)
      have e1 : i + 1 + k = i + (k + 1) := by omega
      have e2 : fuel - k = fuel + 1 - (k + 1) := by omega
      rw [hstep, hrest, e1, e2]

/-- C5: readiness polling of the CertificateRequest proceeds in one-second
steps bounded by the 30-second timeout that `CreateNewCertificate` passes:
with quiet (not ready, not failed) observations before poll `i ≤ 30`, a
"Failed" condition at poll `i` aborts the wait immediately with the
authority-reported reason; a "Ready" condition at poll `i` succeeds; and
if every poll up to the bound stays quiet the wait aborts with the
timeout error. -/
theorem C5_polling (name : String) (trace : Nat → PollObs) (i : Nat)
    (hi : i ≤ 30)
    (hq : ∀ j, j < i → pollOnce name (trace j) = .ok none) :
    (∀ s reason, trace i = .st s →
      certificateRequestFailedReason s.conditions = some reason →
      waitForCertificateRequestReady name trace 30 =
        .error ("certificate request marked as failed: " ++ reason)) ∧
    (∀ s, trace i = .st s →
      certificateRequestFailedReason s.conditions = none →
      certificateRequestReady s = true →
      waitForCertificateRequestReady name trace 30 = .ok s) ∧
    ((∀ j, j ≤ 30 → pollOnce name (trace j) = .ok none) →
      waitForCertificateRequestReady name trace 30 = .error errWaitTimeout) := by
  have hwait : waitForCertificateRequestReady name trace 30 =
      pollLoop name trace 0 30 := rfl
  have hskip : pollLoop name trace 0 30 = pollLoop name trace i (30 - i) := by
    have := pollLoop_skip name trace i 0 30 hi (fun j hj => by
      simpa using hq j hj)
    simpa using this
  refine ⟨?_, ?_, ?_⟩
  · intro s reason hst hfail
    have hpoll : pollOnce name (trace i) =
        .error ("certificate request marked as failed: " ++ reason) := by
      simp [pollOnce, hst, hfail]
    rw [hwait, hskip]
    exact pollLoop_error name trace i _ hpoll _
  · intro s hst hfail hready
    have hpoll : pollOnce name (trace i) = .ok (some s) := by
      simp [pollOnce, hst, hfail, hready]
    rw [hwait, hskip]
    exact pollLoop_ready name trace i s hpoll _
  · intro hall
    have hskip30 : pollLoop name trace 0 30 = pollLoop name trace 30 0 := by
      have := pollLoop_skip name trace 30 0 30 (by omega) (fun j hj => by
        simpa using hall j (by omega))
      simpa using this
    rw [hwait, hskip30]
    simp [pollLoop, hall 30 (by omega)]

/-- Witness for C5: on a trace that is quiet twice and then reports the
failed condition, the wait aborts with the reported reason. -/
theorem C5_polling_witness :
    waitForCertificateRequestReady "vol-1" c5Trace 30 =
      .error ("certificate request marked as failed: " ++ "denied by policy") :=
  (C5_polling "vol-1" c5Trace 2 (by omega)
      (fun j hj => by interval_cases j <;> rfl)).1
    failedStatus "denied by policy" (by rfl) (by rfl)

/-- C4 (code bug at `certmanager.go` line 115): the CertificateRequest
created for the sample volume carries an owner reference of kind `Pod`
whose UID is the pod's UID, but whose `name` is the pod's NAMESPACE
(`"test-namespace"`) — the code reads the pod-namespace attribute where
the claim (and the spec's intent of referencing the requesting pod)
requires the pod's name (`"test-pod"`). -/
theorem C4_ownerReference_uses_namespace :
    ((createNewCertificate sampleEnv sampleVol sampleKeyBundle).authority.map
      fun cr => cr.meta.ownerReferences.map fun o => (o.kind, o.name, o.uid))
      = some [("Pod", "test-namespace", "pod-uid-1234")] ∧
    attrGet sampleVol.attributes csiPodNameKey = "test-pod" ∧
    ("test-namespace" : String) ≠ "test-pod" := by
  refine ⟨by rfl, by rfl, by decide⟩

/-- C6: the create-or-reuse step of the issuance engine.  With the
authority holding no resource for the volume id, a create of the desired
resource is issued and it becomes the authority state; with a resource
whose spec matches, it is reused — no create, no delete — and stays; with
a resource whose spec differs, a delete is issued before the create and
the desired resource replaces it.  In every case the state after the call
holds exactly one resource for the id, and never a stale-spec one. -/
theorem C6_create_or_reuse (env : CMEnv) (vol : MetaData) (kb : KeyBundle) :
    (∀ csr cr, env.authority0 = none → env.getErr = none →
      desiredBuild env vol kb = .ok (csr, cr) → env.createErr = none →
      (createNewCertificate env vol kb).ops =
        [.get vol.id (attrGet vol.attributes csiPodNamespaceKey),
         .create cr] ∧
      (createNewCertificate env vol kb).authority = some cr) ∧
    (∀ cr0, env.authority0 = some cr0 → env.getErr = none →
      env.matchesSpec cr0 vol.attributes = none →
      (createNewCertificate env vol kb).ops =
        [.get vol.id (attrGet vol.attributes csiPodNamespaceKey)] ∧
      (createNewCertificate env vol kb).authority = some cr0) ∧
    (∀ cr0 m csr cr, env.authority0 = some cr0 → env.getErr = none →
      env.matchesSpec cr0 vol.attributes = some m → env.deleteErr = none →
      desiredBuild env vol kb = .ok (csr, cr) → env.createErr = none →
      (createNewCertificate env vol kb).ops =
        [.get vol.id (attrGet vol.attributes csiPodNamespaceKey),
         .del vol.id (attrGet vol.attributes csiPodNamespaceKey),
         .create cr] ∧
      (createNewCertificate env vol kb).authority = some cr) := by
  refine ⟨?_, ?_, ?_⟩
  · intro csr cr h0 hget hbuild hcreate
    simp [createNewCertificate, checkExistingCertificateRequest, h0, hget,
      hbuild, hcreate]
  · intro cr0 h0 hget hmatch
    simp [createNewCertificate, checkExistingCertificateRequest, h0, hget,
      hmatch]
  · intro cr0 m csr cr h0 hget hmatch hdel hbuild hcreate
    simp [createNewCertificate, checkExistingCertificateRequest, h0, hget,
      hmatch, hdel, hbuild, hcreate]

/-- Witness for C6: in the sample environment (no existing resource) the
call issues a get and then a create of the desired resource, which becomes
the authority state. -/
theorem C6_create_or_reuse_witness :
    (createNewCertificate sampleEnv sampleVol sampleKeyBundle).ops =
      [.get sampleVol.id (attrGet sampleVol.attributes csiPodNamespaceKey),
       .create sampleCR] ∧
    (createNewCertificate sampleEnv sampleVol sampleKeyBundle).authority =
      some sampleCR :=
  (C6_create_or_reuse sampleEnv sampleVol sampleKeyBundle).1
    sampleCSR sampleCR rfl rfl (by rfl) rfl

theorem finishCertificate_written_stages (env : CMEnv) (vol : MetaData)
    (kb : KeyBundle) :
    (finishCertificate env vol kb).2 = [] ∨
    (∃ st m, (finishCertificate env vol kb).1 = .error (st, m) ∧
      (st = Stage.writeCert ∨ st = Stage.writeCA ∨ st = Stage.decodeCert ∨
       st = Stage.writeKey)) ∨
    (∃ c, (finishCertificate env vol kb).1 = .ok c) := by
  unfold finishCertificate
  cases hwait : waitForCertificateRequestReady vol.id env.pollTrace 30 with
  | error e => simp
  | ok s =>
    cases hmeta : env.writeMetaErr with
    | some e => simp
    | none =>
      cases hcert : env.writeCertErr with
      | some e =>
        right
        left
        exact ⟨Stage.writeCert, e, rfl, Or.inl rfl⟩
      | none =>
        by_cases hca : s.ca.length > 0
        · cases hcaw : env.writeCAErr with
          | some e =>
            simp only [hca, if_pos]
            right
            left
            exact ⟨Stage.writeCA, e, rfl, Or.inr (Or.inl rfl)⟩
          | none =>
            simp only [hca, if_pos]
            cases hdec : env.decodeCert s.certificate with
            | error e =>
              right
              left
              exact ⟨Stage.decodeCert, e, rfl, Or.inr (Or.inr (Or.inl rfl))⟩
            | ok c =>
              cases hkey : env.writeKeyErr with
              | some e =>
                right
                left
                exact ⟨Stage.writeKey, e, rfl, Or.inr (Or.inr (Or.inr rfl))⟩
              | none =>
                right
                right
                exact ⟨c, rfl⟩
        · simp only [hca, if_neg]
          cases hdec : env.decodeCert s.certificate with
          | error e =>
            right
            left
            exact ⟨Stage.decodeCert, e, rfl, Or.inr (Or.inr (Or.inl rfl))⟩
          | ok c =>
            cases hkey : env.writeKeyErr with
            | some e =>
              right
              left
              exact ⟨Stage.writeKey, e, rfl, Or.inr (Or.inr (Or.inr rfl))⟩
            | none =>
              right
              right
              exact ⟨c, rfl⟩

/-- C9: whenever the issuance call returns an error from the
existing-resource check, the create call, or the readiness polling, no
file has been written by that call — the metadata, certificate, CA and key
writes happen only after polling has reported the resource ready. -/
theorem C9_no_writes_on_early_error (env : CMEnv) (vol : MetaData)
    (kb : KeyBundle) (st : Stage) (m : String)
    (hres : (createNewCertificate env vol kb).result = .error (st, m))
    (hst : st = Stage.checkExisting ∨ st = Stage.createCall ∨
           st = Stage.polling) :
    (createNewCertificate env vol kb).written = [] := by
  rcases hchk : checkExistingCertificateRequest env vol with ⟨res, auth, ops⟩
  unfold createNewCertificate at hres ⊢
  rw [hchk] at hres ⊢
  cases res with
  | error e => simp
  | ok b =>
    cases b with
    | true =>
      simp only at hres ⊢
      rcases finishCertificate_written_stages env vol kb with hw | hlate | hok
      · exact hw
      · obtain ⟨st', m', heq, hl⟩ := hlate
        rw [hres] at heq
        rcases hst with h | h | h <;> rcases hl with h2 | h2 | h2 | h2 <;>
          simp_all
      · obtain ⟨c, heq⟩ := hok
        rw [hres] at heq
        simp at heq
    | false =>
      cases hb : desiredBuild env vol kb with
      | error e => simp
      | ok p =>
        rcases p with ⟨csr, cr⟩
        rw [hb] at hres
        cases hce : env.createErr with
        | some e => simp
        | none =>
          rw [hce] at hres
          simp only at hres ⊢
          rcases finishCertificate_written_stages env vol kb with hw | hlate | hok
          · exact hw
          · obtain ⟨st', m', heq, hl⟩ := hlate
            rw [hres] at heq
            rcases hst with h | h | h <;> rcases hl with h2 | h2 | h2 | h2 <;>
              simp_all
          · obtain ⟨c, heq⟩ := hok
            rw [hres] at heq
            simp at heq

/-- Witness for C9: with a failing create call, nothing is written. -/
theorem C9_no_writes_on_early_error_witness :
    (createNewCertificate c9Env sampleVol sampleKeyBundle).written = [] :=
  C9_no_writes_on_early_error c9Env sampleVol sampleKeyBundle
    Stage.createCall "apiserver unavailable" (by rfl) (Or.inr (Or.inl rfl))

theorem attrGet_eq_empty_of_not_attrHas (attr : AttrMap) (k : String)
    (h : attrHas attr k = false) : attrGet attr k = "" := by
  unfold attrHas at h
  cases hl : List.lookup k attr with
  | none => simp [attrGet, hl]
  | some v =>
    rw [hl] at h
    simp at h

theorem desiredBuild_dnsNames (env : CMEnv) (vol : MetaData) (kb : KeyBundle)
    (csr : CertificateRequestX509) (cr : CertificateRequest)
    (h : desiredBuild env vol kb = .ok (csr, cr)) :
    csr.dnsNames = goSplit (attrGet vol.attributes dnsNamesKey) ',' := by
  unfold desiredBuild at h
  simp only [] at h
  cases hu : env.parseURIs (attrGet vol.attributes uriSANsKey) with
  | error e =>
    rw [hu] at h
    simp at h
  | ok uris =>
    rw [hu] at h
    simp only at h
    by_cases hd : attrHas vol.attributes durationKey = true
    · rw [if_pos hd] at h
      cases hp : env.parseDur (attrGet vol.attributes durationKey) with
      | error e =>
        rw [hp] at h
        simp at h
      | ok d =>
        rw [hp] at h
        simp only at h
        cases he : env.encodeCSR (buildX509CSR env vol kb uris) with
        | error e =>
          rw [he] at h
          simp at h
        | ok pem =>
          rw [he] at h
          simp only [Except.ok.injEq, Prod.mk.injEq] at h
          rw [← h.1]
          rfl
    · rw [if_neg hd] at h
      simp only at h
      cases he : env.encodeCSR (buildX509CSR env vol kb uris) with
      | error e =>
        rw [he] at h
        simp at h
      | ok pem =>
        rw [he] at h
        simp only [Except.ok.injEq, Prod.mk.injEq] at h
        rw [← h.1]
        rfl

/-- C10: when the dns-names attribute is absent or the empty string, the
certificate signing request built by the issuance engine carries a
DNS-names list of exactly one element, the empty string —
`strings.Split("", ",")` yields `[""]`, not `[]`. -/
theorem C10_empty_dnsNames (env : CMEnv) (vol : MetaData) (kb : KeyBundle)
    (csr : CertificateRequestX509)
    (hdns : attrHas vol.attributes dnsNamesKey = false ∨
            attrGet vol.attributes dnsNamesKey = "")
    (hbuilt : (createNewCertificate env vol kb).builtCSR = some csr) :
    csr.dnsNames = [""] := by
  have hex : ∃ cr, desiredBuild env vol kb = .ok (csr, cr) := by
    rcases hchk : checkExistingCertificateRequest env vol with ⟨res, auth, ops⟩
    unfold createNewCertificate at hbuilt
    rw [hchk] at hbuilt
    cases res with
    | error e => simp at hbuilt
    | ok b =>
      cases b with
      | true => simp at hbuilt
      | false =>
        cases hb : desiredBuild env vol kb with
        | error e =>
          rw [hb] at hbuilt
          simp at hbuilt
        | ok p =>
          rcases p with ⟨csr', cr'⟩
          rw [hb] at hbuilt
          cases hce : env.createErr with
          | some e =>
            rw [hce] at hbuilt
            simp only [Option.some.injEq] at hbuilt
            exact ⟨cr', by rw [hbuilt]⟩
          | none =>
            rw [hce] at hbuilt
            simp only [Option.some.injEq] at hbuilt
            exact ⟨cr', by rw [hbuilt]⟩
  obtain ⟨cr, hb⟩ := hex
  have hg := desiredBuild_dnsNames env vol kb csr cr hb
  have hempty : attrGet vol.attributes dnsNamesKey = "" := by
    rcases hdns with h | h
    · exact attrGet_eq_empty_of_not_attrHas _ _ h
    · exact h
  rw [hg, hempty]
  rfl

/-- Witness for C10: the sample volume carries no dns-names attribute and
its built CSR has the one-element DNS list `[""]`. -/
theorem C10_empty_dnsNames_witness : sampleCSR.dnsNames = [""] :=
  C10_empty_dnsNames sampleEnv sampleVol sampleKeyBundle sampleCSR
    (Or.inl (by rfl)) (by rfl)

end certmanager

namespace driver

open CSI certmanager

/-- C1 counterexample: with a failing unmount, the call returns a nil
error (the unmount failure is not surfaced to the caller) and the
directory removal and destroy notification are skipped — refuting both
parts of the claim at this input. -/
theorem C1_counterexample :
    (nodeUnpublishVolume c1Env "csi-0001" "/target").err = none ∧
    (nodeUnpublishVolume c1Env "csi-0001" "/target").eff.removeAttempted
      = false ∧
    (nodeUnpublishVolume c1Env "csi-0001" "/target").eff.destroySent
      = false :=
  ⟨rfl, rfl, rfl⟩

/-- C1 (amended): for every unpublish call with non-empty arguments in
which the unmount fails, the call returns immediately with a nil error and
a nil response — the failure is swallowed, not returned — and the
recursive directory removal and the destroy notification are skipped; the
metadata read, watcher cancellation and unmount, which precede the failing
return, have run. -/
theorem C1_unmount_failure_swallowed (env : UnpubEnv)
    (volumeId targetPath : String)
    (htp : targetPath.length ≠ 0) (hid : volumeId.length ≠ 0)
    (m : String) (hu : env.unmountErr = some m) :
    nodeUnpublishVolume env volumeId targetPath =
      ⟨none, true, ⟨true, true, true, false, false⟩⟩ := by
  unfold nodeUnpublishVolume
  rw [if_neg htp, if_neg hid, hu]

/-- Witness for C1: the amended behaviour at the concrete failing-unmount
environment. -/
theorem C1_unmount_failure_swallowed_witness :
    nodeUnpublishVolume c1Env "csi-0001" "/target" =
      ⟨none, true, ⟨true, true, true, false, false⟩⟩ :=
  C1_unmount_failure_swallowed c1Env "csi-0001" "/target"
    (by decide) (by decide) "device or resource busy" rfl

/-- C2 counterexample: a publish call whose target path is already an
active mount point succeeds without mounting, but the issuance engine IS
invoked (the `CreateNewCertificate` call at `nodeserver.go` line 98 runs
before the mount-point check at line 132) — refuting the claim that no
new certificate issuance is performed. -/
theorem C2_counterexample :
    (nodePublishVolume c2Env c2Req).1 = .ok () ∧
    (nodePublishVolume c2Env c2Req).2.mountAttempted = false ∧
    (nodePublishVolume c2Env c2Req).2.issuanceInvoked = true :=
  ⟨rfl, rfl, rfl⟩

/-- C2 (amended): for every publish call in which validation, defaults,
directory creation, key generation, issuance, watcher registration and
metadata write succeed and the target path is already an active mount
point, the call returns success and performs no new mount (and no create
notification) — but the issuance engine has been invoked again. -/
theorem C2_republish_no_mount_but_reissues (env : PublishEnv)
    (req : PublishReq) (attr : AttrMap) (kb : KeyBundle) (cert : Certificate)
    (hval : validateVolumeAttributes req = none)
    (hdef : env.defaults req.volumeContext = .ok attr)
    (hvala : validation.validateAttributes env.durErr attr = none)
    (hmk : env.mkVolDirErr = none)
    (hkb : env.keyBundle = .ok kb)
    (hiss : (certmanager.createNewCertificate env.cm
      (createVolume env.dataRoot req.volumeId req.targetPath attr) kb).result
      = .ok cert)
    (hwatch : env.watchErr = none)
    (hmeta : env.writeMetaErr = none)
    (hlm : env.likelyMountPointErr = none)
    (hmp : env.likelyMountPoint = true)
    (hmd : env.mkMountDirErr = none) :
    (nodePublishVolume env req).1 = .ok () ∧
    (nodePublishVolume env req).2.mountAttempted = false ∧
    (nodePublishVolume env req).2.webhookCreateSent = false ∧
    (nodePublishVolume env req).2.issuanceInvoked = true := by
  simp only [nodePublishVolume, publishAfterVolume, publishMount, hval, hdef,
    hvala, hmk, hkb, hiss, hwatch, hmeta, hlm, hmp, hmd]
  split_ifs with h1
  · exact ⟨rfl, rfl, rfl, rfl⟩
  · exact ⟨rfl, rfl, rfl, rfl⟩

/-- Witness for C2: the amended behaviour at the concrete already-mounted
environment. -/
theorem C2_republish_witness :
    (nodePublishVolume c2Env c2Req).1 = .ok () ∧
    (nodePublishVolume c2Env c2Req).2.mountAttempted = false ∧
    (nodePublishVolume c2Env c2Req).2.webhookCreateSent = false ∧
    (nodePublishVolume c2Env c2Req).2.issuanceInvoked = true :=
  C2_republish_no_mount_but_reissues c2Env c2Req sampleAttr sampleKeyBundle
    (Certificate.mk 1000) rfl rfl (by rfl) rfl rfl (by rfl) rfl rfl rfl rfl rfl

/-- C3 counterexample: a request violating the block-access restriction is
rejected with a gRPC error of code `Internal` (`nodeserver.go` line 70),
not of the invalid-argument class as claimed. -/
theorem C3_counterexample :
    (nodePublishVolume c2Env c3Req).1 =
      .error ⟨GrpcCode.internal, "block access type not supported"⟩ ∧
    GrpcCode.internal ≠ GrpcCode.invalidArgument :=
  ⟨rfl, by decide⟩

theorem nodeValidationErrs_eq (req : PublishReq) :
    nodeValidationErrs req =
      (if ¬ (attrGet req.volumeContext csiEphemeralKey = "true" ∨
             attrGet req.volumeContext csiEphemeralKey = "") then
        ["publishing a non-ephemeral volume mount is not supported"]
       else []) ++
      (if !(attrHas req.volumeContext csiPodNameKey) ||
          !(attrHas req.volumeContext csiPodNamespaceKey) then
        ["expecting both " ++ csiPodNamespaceKey ++ " and " ++ csiPodNameKey ++
          " attributes to be set in context"]
       else []) ++
      capBlock req ++
      (if req.volumeId.length = 0 then ["volume ID missing"] else []) ++
      (if req.targetPath.length = 0 then ["target path missing"] else []) := by
  simp only [nodeValidationErrs, capBlock]
  split_ifs <;> simp

/-- C3 (amended): every publish request violating a capability or
volume-type restriction is rejected before any other work (no effects)
with a single combined error that lists every violated rule — but the
error is classed `Internal`, not invalid-argument.  Each rule's message is
present in the collected list exactly when that rule is violated, and each
collected message is a substring of the single returned error. -/
theorem C3_upfront_validation (env : PublishEnv) (req : PublishReq)
    (h : nodeValidationErrs req ≠ []) :
    (nodePublishVolume env req).1 =
      .error ⟨GrpcCode.internal, joinErrs (nodeValidationErrs req)⟩ ∧
    (nodePublishVolume env req).2 = noPubEffects ∧
    (∀ m ∈ nodeValidationErrs req,
      strContains (joinErrs (nodeValidationErrs req)) m = true) ∧
    (req.hasVolumeCapability = true → req.isBlockAccess = true →
      "block access type not supported" ∈ nodeValidationErrs req) ∧
    (req.hasVolumeCapability = false →
      "volume capability missing" ∈ nodeValidationErrs req) ∧
    (req.volumeId = "" → "volume ID missing" ∈ nodeValidationErrs req) ∧
    (req.targetPath = "" → "target path missing" ∈ nodeValidationErrs req) ∧
    (attrGet req.volumeContext csiEphemeralKey ≠ "true" →
     attrGet req.volumeContext csiEphemeralKey ≠ "" →
      "publishing a non-ephemeral volume mount is not supported"
        ∈ nodeValidationErrs req) ∧
    (attrHas req.volumeContext csiPodNameKey = false →
      ("expecting both " ++ csiPodNamespaceKey ++ " and " ++ csiPodNameKey ++
        " attributes to be set in context") ∈ nodeValidationErrs req) :=
by
  have hval : validateVolumeAttributes req =
      some (joinErrs (nodeValidationErrs req)) := by
    unfold validateVolumeAttributes
    rw [if_pos h]
  refine ⟨?_, ?_, ?_, ?_, ?_, ?_, ?_, ?_, ?_⟩
  · simp [nodePublishVolume, hval]
  · simp [nodePublishVolume, hval]
  · intro m hm
    exact joinErrs_contains_of_mem m _ hm
  · intro h1 h2
    rw [nodeValidationErrs_eq]
    have hb : capBlock req = ["block access type not supported"] := by
      simp [capBlock, h1, h2]
    rw [hb]
    simp
  · intro h1
    rw [nodeValidationErrs_eq]
    have hb : capBlock req = ["volume capability missing"] := by
      simp [capBlock, h1]
    rw [hb]
    simp
  · intro h1
    rw [nodeValidationErrs_eq]
    have hb : (if req.volumeId.length = 0 then ["volume ID missing"]
        else []) = ["volume ID missing"] := by
      simp [h1]
    rw [hb]
    simp
  · intro h1
    rw [nodeValidationErrs_eq]
    have hb : (if req.targetPath.length = 0 then ["target path missing"]
        else []) = ["target path missing"] := by
      simp [h1]
    rw [hb]
    simp
  · intro h1 h2
    rw [nodeValidationErrs_eq]
    have hb : (if ¬ (attrGet req.volumeContext csiEphemeralKey = "true" ∨
          attrGet req.volumeContext csiEphemeralKey = "") then
        ["publishing a non-ephemeral volume mount is not supported"]
        else []) =
        ["publishing a non-ephemeral volume mount is not supported"] := by
      simp [h1, h2]
    rw [hb]
    simp
  · intro h1
    rw [nodeValidationErrs_eq]
    have hb : (if !(attrHas req.volumeContext csiPodNameKey) ||
          !(attrHas req.volumeContext csiPodNamespaceKey) then
        ["expecting both " ++ csiPodNamespaceKey ++ " and " ++
          csiPodNameKey ++ " attributes to be set in context"]
        else []) =
        ["expecting both " ++ csiPodNamespaceKey ++ " and " ++
          csiPodNameKey ++ " attributes to be set in context"] := by
      simp [h1]
    rw [hb]
    simp

/-- Witness for C3: the combined internal-class error for the block-access
violation. -/
theorem C3_upfront_validation_witness :
    (nodePublishVolume c2Env c3Req).1 =
      .error ⟨GrpcCode.internal, joinErrs (nodeValidationErrs c3Req)⟩ :=
  (C3_upfront_validation c2Env c3Req (by decide)).1

end driver
